import Mathlib

set_option autoImplicit false

/-
Shallow embedding of the playdo-frontend code-context synchronization core:
the send-payload decision logic of src/components/ConversationManager.tsx,
the staleness wiring of src/components/App.tsx, and the PyodideRunner
lifecycle of src/services/pyodide.ts.
-/

namespace Playdo

/-- ContentItem from src/types.ts: one content block inside a chat message. -/
structure ContentItem where
  text : String
  type : String
deriving DecidableEq, Repr

/-- Message from src/types.ts (named ChatMessage here to avoid clashing with
library names): role plus a list of content items. -/
structure ChatMessage where
  content : List ContentItem
  role : String
deriving DecidableEq, Repr

/-- Conversation from src/types.ts. -/
structure Conversation where
  created_at : String
  id : Int
  messages : List ChatMessage
  updated_at : String
deriving DecidableEq, Repr

/-- ExecutionResult from src/services/pyodide.ts. The field error is the
fault description (null when the run succeeded); result is the terminal
value (null when the run raised). The terminal value, typed unknown in the
source, is modelled as an optional string. -/
structure ExecutionResult where
  stdout : String
  stderr : String
  error : Option String
  result : Option String
deriving DecidableEq, Repr

/-- PyodideStatus from src/services/pyodide.ts. -/
inductive PyodideStatus where
  | uninitialized
  | loading
  | ready
  | error
deriving DecidableEq, Repr

/-- Outcome of one sandboxed execution inside PyodideRunner.executeCode:
either runPythonAsync resolves with a value, or it raises with a message.
Both carry the stdout and stderr chunks pushed into the buffers during the
run. -/
inductive RunOutcome where
  | success (value : Option String) (stdoutChunks stderrChunks : List String)
  | raised (message : String) (stdoutChunks stderrChunks : List String)
deriving DecidableEq, Repr

/-- The ExecutionResult that PyodideRunner.executeCode returns for a given
sandbox outcome (src/services/pyodide.ts lines 81-106): on success the
buffers are joined and error is null; on a raise the buffers are still
joined, error is the message, and result is null. The raise is caught and
returned as a normal result, never rethrown to the caller. -/
def executeCodeResult : RunOutcome → ExecutionResult
  | RunOutcome.success v outB errB =>
      { stdout := String.intercalate "\n" outB
        stderr := String.intercalate "\n" errB
        error := none
        result := v }
  | RunOutcome.raised m outB errB =>
      { stdout := String.intercalate "\n" outB
        stderr := String.intercalate "\n" errB
        error := some m
        result := none }

/-- The mutable fields of PyodideRunner (src/services/pyodide.ts lines
26-28): the engine instance (null until a load succeeds, modelled as an
optional instance identifier) and the status enum. -/
structure RunnerState where
  pyodide : Option Nat
  status : PyodideStatus
deriving DecidableEq, Repr

/-- Initial PyodideRunner state: no instance, status uninitialized. -/
def runnerInit : RunnerState :=
  { pyodide := none, status := PyodideStatus.uninitialized }

/-- What the synchronous prefix of PyodideRunner.initialize did before its
first suspension point: either it returned the existing engine instance, or
it set status to loading and started a fresh engine load. -/
inductive InitPhase1 where
  | returnedExisting
  | startedLoad
deriving DecidableEq, Repr

/-- Synchronous prefix of PyodideRunner.initialize (src/services/pyodide.ts
lines 33-40): if this.pyodide is non-null, return it immediately; otherwise
set status to loading and begin awaiting loadPyodide. The guard inspects
only the pyodide field, which is still null while a previous load is in
flight. -/
def initPhase1 (s : RunnerState) : RunnerState × InitPhase1 :=
  if s.pyodide.isSome then (s, InitPhase1.returnedExisting)
  else ({ s with status := PyodideStatus.loading }, InitPhase1.startedLoad)

/-- One fully settled call into PyodideRunner, with the fate of the engine
load it may have performed: some id when loadPyodide resolved with a fresh
instance, none when it rejected. An initCall settles the whole of
initialize; an execCall settles executeCode including its auto-init. -/
inductive SettledCall where
  | initCall (loadResult : Option Nat)
  | execCall (loadResult : Option Nat)
deriving DecidableEq, Repr

/-- Effect of one settled call on the runner state. initialize with a
non-null instance returns it unchanged; otherwise a successful load stores
the instance and sets ready, and a failed load sets error and leaves the
instance null (src/services/pyodide.ts lines 33-48). executeCode only
touches the state through its auto-init (lines 55-57); the execution itself
changes neither field. -/
def runnerStep (s : RunnerState) (c : SettledCall) : RunnerState :=
  match c with
  | SettledCall.initCall r =>
      if s.pyodide.isSome then s
      else
        match r with
        | some inst => { pyodide := some inst, status := PyodideStatus.ready }
        | none => { s with status := PyodideStatus.error }
  | SettledCall.execCall r =>
      if s.pyodide.isSome then s
      else
        match r with
        | some inst => { pyodide := some inst, status := PyodideStatus.ready }
        | none => { s with status := PyodideStatus.error }

/-- OutgoingMessagePayload: the arguments handed to sendMessage by
handleSendMessage (src/components/ConversationManager.tsx lines 129-135).
none models a null field, meaning not attached. -/
structure OutgoingPayload where
  text : String
  code : Option String
  stdout : Option String
  stderr : Option String
deriving DecidableEq, Repr

/-- Props of ConversationManager (src/components/ConversationManager.tsx
lines 8-14). -/
structure CMProps where
  conversationId : Option Int
  currentCode : String
  stdout : Option String
  stderr : Option String
  outputIsStale : Bool
deriving DecidableEq, Repr

/-- The component state of ConversationManager touched by
handleSendMessage: conversation, error, messageInput, sending and
lastSentCode (src/components/ConversationManager.tsx lines 24-34). -/
structure CMState where
  conversation : Option Conversation
  error : Option String
  messageInput : String
  sending : Bool
  lastSentCode : Option String
deriving DecidableEq, Repr

/-- Model of the JavaScript string trim method: strip leading and trailing
whitespace. Written over the character list so that it evaluates inside the
kernel. -/
def strTrim (s : String) : String :=
  String.mk
    (((s.data.dropWhile Char.isWhitespace).reverse.dropWhile
      Char.isWhitespace).reverse)

/-- Truthiness test on a nullable number, as used by the guard
!conversationId: null and 0 are falsy, every other number is truthy. -/
def numberFalsy : Option Int → Bool
  | none => true
  | some n => n == 0

/-- The early-return guard of handleSendMessage
(src/components/ConversationManager.tsx line 99):
!conversationId or !messageInput.trim() or sending. -/
def guardBlocked (props : CMProps) (st : CMState) : Bool :=
  numberFalsy props.conversationId || strTrim st.messageInput == "" || st.sending

/-- The payload computation of handleSendMessage
(src/components/ConversationManager.tsx lines 118-127): code is attached
exactly when currentCode differs from lastSentCode by strict string
comparison (a never-sent null baseline differs from every string); stdout
and stderr are attached, coerced from null to the empty string, exactly
when code is attached and the output is not stale. -/
def computePayload (currentCode : String) (stdout stderr : Option String)
    (outputIsStale : Bool) (lastSentCode : Option String)
    (text : String) : OutgoingPayload :=
  let codeToSend : Option String :=
    if lastSentCode = some currentCode then none else some currentCode
  let sendOutput : Bool := codeToSend.isSome && !outputIsStale
  { text := text
    code := codeToSend
    stdout := if sendOutput then some (stdout.getD "") else none
    stderr := if sendOutput then some (stderr.getD "") else none }

/-- The part of handleSendMessage up to the awaited transport call
(src/components/ConversationManager.tsx lines 96-135): if the guard blocks,
return with the state untouched and no payload (no transport call is made);
otherwise set sending and compute the payload to transmit. -/
def sendPhase1 (props : CMProps) (st : CMState) :
    CMState × Option OutgoingPayload :=
  if guardBlocked props st then (st, none)
  else
    ({ st with sending := true },
      some (computePayload props.currentCode props.stdout props.stderr
        props.outputIsStale st.lastSentCode st.messageInput))

/-- The 10 second timeout callback (src/components/ConversationManager.tsx
lines 110-113): it clears sending and surfaces an error, nothing else. It
does not cancel the in-flight transport call. -/
def timeoutFire (st : CMState) : CMState :=
  { st with
    sending := false
    error := some "The request is taking longer than expected. Please try again." }

/-- Settlement of the transport call made for one send. -/
inductive TransportOutcome where
  | success (updated : Conversation)
  | failure
deriving DecidableEq, Repr

/-- The continuation of handleSendMessage after the awaited sendMessage
settles (src/components/ConversationManager.tsx lines 136-154), applied to
the component state at settlement time. On success: lastSentCode advances
to the captured currentCode exactly when the captured payload attached
code, the conversation is replaced by the transport result, and the input
is cleared. On failure: only the error message is set. Both paths finally
clear sending. -/
def sendSettle (payload : OutgoingPayload) (currentCode : String)
    (o : TransportOutcome) (st : CMState) : CMState :=
  match o with
  | TransportOutcome.success updated =>
      { st with
        lastSentCode :=
          if payload.code.isSome then some currentCode else st.lastSentCode
        conversation := some updated
        messageInput := ""
        sending := false }
  | TransportOutcome.failure =>
      { st with
        error := some "Failed to send message. Please try again."
        sending := false }

/-- A complete handleSendMessage call in which the transport settles before
the 10 second timeout fires: the guarded prefix, then the settlement
continuation applied to the captured payload and currentCode. -/
def handleSendMessage (props : CMProps) (st : CMState)
    (o : TransportOutcome) : CMState :=
  match sendPhase1 props st with
  | (st1, none) => st1
  | (st1, some payload) => sendSettle payload props.currentCode o st1

/-- The App state relevant to staleness (src/components/App.tsx lines
17-20): the editor code and the outputIsStale flag. -/
structure AppState where
  code : String
  outputIsStale : Bool
deriving DecidableEq, Repr

/-- A code edit in App (setCode plus the effect on lines 50-52 that marks
output stale whenever the code value changes; React skips the update when
the new value is identical). -/
def setCode (s : AppState) (newCode : String) : AppState :=
  if newCode = s.code then s else { code := newCode, outputIsStale := true }

/-- The continuation of handleRunCode after executeCode resolves
successfully (src/components/App.tsx lines 54-61): it unconditionally
clears outputIsStale, regardless of whether the editor code changed while
the run was in flight. -/
def runCodeResolve (s : AppState) : AppState :=
  { s with outputIsStale := false }

/-- The stdout prop App passes to ConversationManager
(src/components/App.tsx line 154): result?.stdout or null, so a missing
result and an empty-string stdout both become null. -/
def stdoutProp (result : Option ExecutionResult) : Option String :=
  match result with
  | none => none
  | some r => if r.stdout = "" then none else some r.stdout

/-- The stderr prop App passes to ConversationManager
(src/components/App.tsx line 155): result?.stderr or null. -/
def stderrProp (result : Option ExecutionResult) : Option String :=
  match result with
  | none => none
  | some r => if r.stderr = "" then none else some r.stderr

/-- Sample conversation returned by the transport in concrete traces. -/
def convSample : Conversation :=
  { created_at := "2025-01-01", id := 1, messages := [], updated_at := "2025-01-01" }

/-- Sample props for the concrete timeout trace: a fresh code value, fresh
output, nothing sent yet. -/
def propsSample : CMProps :=
  { conversationId := some 1
    currentCode := "print(1)"
    stdout := some "1"
    stderr := some ""
    outputIsStale := false }

/-- Sample component state for the concrete timeout trace: idle, a typed
message, never-sent baseline. -/
def stSample : CMState :=
  { conversation := none
    error := none
    messageInput := "hello"
    sending := false
    lastSentCode := none }

/-- Sample component state whose message input is whitespace only, so the
guard blocks the send. -/
def stBlockedSample : CMState :=
  { conversation := none
    error := none
    messageInput := "   "
    sending := false
    lastSentCode := none }

/-- Sample runner state after a successful engine load. -/
def readyRunnerSample : RunnerState :=
  { pyodide := some 0, status := PyodideStatus.ready }

/-- Sample execution result with empty-string stdout and stderr. -/
def emptyOutputSample : ExecutionResult :=
  { stdout := "", stderr := "", error := none, result := none }

/-- C1: in every payload computed for a send, stdout and stderr are
attached exactly when code is attached and the staleness flag is false;
code is attached exactly when the current code differs, by exact string
comparison, from the last-sent baseline; and under a true staleness flag
stdout and stderr are always absent. -/
theorem payloadAttachmentInvariant (currentCode : String)
    (stdout stderr : Option String) (stale : Bool)
    (lastSentCode : Option String) (text : String) :
    ((computePayload currentCode stdout stderr stale lastSentCode text).stdout ≠ none ↔
      ((computePayload currentCode stdout stderr stale lastSentCode text).code ≠ none ∧
        stale = false)) ∧
    ((computePayload currentCode stdout stderr stale lastSentCode text).stderr ≠ none ↔
      ((computePayload currentCode stdout stderr stale lastSentCode text).code ≠ none ∧
        stale = false)) ∧
    ((computePayload currentCode stdout stderr stale lastSentCode text).code ≠ none ↔
      lastSentCode ≠ some currentCode) ∧
    (stale = true →
      (computePayload currentCode stdout stderr stale lastSentCode text).stdout = none ∧
      (computePayload currentCode stdout stderr stale lastSentCode text).stderr = none) := by
  by_cases hl : lastSentCode = some currentCode <;> cases stale <;>
    simp [computePayload, hl]

/-- C1 witness: at a concrete stale input, applying the invariant shows
stdout and stderr absent. -/
theorem payloadAttachmentInvariant_spot :
    (computePayload "x" (some "out") (some "err") true none "hi").stdout = none ∧
    (computePayload "x" (some "out") (some "err") true none "hi").stderr = none :=
  (payloadAttachmentInvariant "x" (some "out") (some "err") true none "hi").2.2.2 rfl

/-- C7: a sandboxed execution that raises is returned as a normal
ExecutionResult with the fault message set and the terminal value absent,
and no ExecutionResult produced by executeCode carries both a terminal
value and a fault. -/
theorem faultReturnedAsNormalResult (o : RunOutcome) (m : String)
    (outB errB : List String) :
    (executeCodeResult (RunOutcome.raised m outB errB)).error = some m ∧
    (executeCodeResult (RunOutcome.raised m outB errB)).result = none ∧
    ((executeCodeResult o).error = none ∨ (executeCodeResult o).result = none) := by
  refine ⟨rfl, rfl, ?_⟩
  cases o <;> simp [executeCodeResult]

/-- C9: when the message is empty or whitespace only, or no conversation is
selected, or a send is already in flight, the send handler makes no
transport call and returns the component state unchanged. -/
theorem guardedSendIsNoOp (props : CMProps) (st : CMState)
    (o : TransportOutcome)
    (h : strTrim st.messageInput = "" ∨ props.conversationId = none ∨
      st.sending = true) :
    sendPhase1 props st = (st, none) ∧ handleSendMessage props st o = st := by
  have hb : guardBlocked props st = true := by
    rcases h with h | h | h <;> simp [guardBlocked, numberFalsy, h]
  refine ⟨?_, ?_⟩
  · simp [sendPhase1, hb]
  · simp [handleSendMessage, sendPhase1, hb]

/-- C9 witness: a whitespace-only input at a concrete state is a no-op and
makes no transport call. -/
theorem guardedSendIsNoOp_spot :
    (strTrim stBlockedSample.messageInput = "" ∨
      propsSample.conversationId = none ∨ stBlockedSample.sending = true) ∧
    (sendPhase1 propsSample stBlockedSample = (stBlockedSample, none) ∧
      handleSendMessage propsSample stBlockedSample TransportOutcome.failure =
        stBlockedSample) :=
  ⟨Or.inl (by decide),
    guardedSendIsNoOp propsSample stBlockedSample TransportOutcome.failure
      (Or.inl (by decide))⟩

/-- C5, failing trace: a run is invoked while the editor holds code a, the
editor is edited to the different code b before the run resolves (which
marks the output stale), and the resolution of the run still clears the
staleness flag, leaving the fresh code b wrongly marked non-stale. -/
theorem staleClearedDespiteMidRunEdit :
    ("b" : String) ≠ "a" ∧
    (setCode { code := "a", outputIsStale := true } "b").outputIsStale = true ∧
    (runCodeResolve (setCode { code := "a", outputIsStale := true } "b")).outputIsStale =
      false := by
  refine ⟨by decide, ?_, ?_⟩ <;> simp [setCode, runCodeResolve]

/-- C8: an execution result whose stdout and stderr are both the empty
string is passed down to the conversation component as null props, yet
when code changed and staleness is false the payload attaches both as the
empty string, never as null. -/
theorem emptyOutputAttachedAsEmptyStrings (r : ExecutionResult)
    (currentCode text : String) (lastSentCode : Option String)
    (h1 : r.stdout = "") (h2 : r.stderr = "")
    (hdiff : lastSentCode ≠ some currentCode) :
    stdoutProp (some r) = none ∧ stderrProp (some r) = none ∧
    (computePayload currentCode (stdoutProp (some r)) (stderrProp (some r))
      false lastSentCode text).stdout = some "" ∧
    (computePayload currentCode (stdoutProp (some r)) (stderrProp (some r))
      false lastSentCode text).stderr = some "" := by
  simp [stdoutProp, stderrProp, h1, h2, computePayload, hdiff]

/-- C8 witness: the empty-output sample result with fresh code attaches
empty strings. -/
theorem emptyOutputAttachedAsEmptyStrings_spot :
    (emptyOutputSample.stdout = "" ∧ emptyOutputSample.stderr = "" ∧
      (none : Option String) ≠ some "print(1)") ∧
    (stdoutProp (some emptyOutputSample) = none ∧
      stderrProp (some emptyOutputSample) = none ∧
      (computePayload "print(1)" (stdoutProp (some emptyOutputSample))
        (stderrProp (some emptyOutputSample)) false none "why").stdout = some "" ∧
      (computePayload "print(1)" (stdoutProp (some emptyOutputSample))
        (stderrProp (some emptyOutputSample)) false none "why").stderr = some "") :=
  ⟨⟨rfl, rfl, by decide⟩,
    emptyOutputAttachedAsEmptyStrings emptyOutputSample "print(1)" "why" none
      rfl rfl (by decide)⟩

/-- Decomposition of a passing guard into its three conjuncts. -/
theorem guard_false_parts (props : CMProps) (st : CMState)
    (h : guardBlocked props st = false) :
    numberFalsy props.conversationId = false ∧
    strTrim st.messageInput ≠ "" ∧ st.sending = false := by
  simp only [guardBlocked, Bool.or_eq_false_iff, beq_eq_false_iff_ne, ne_eq] at h
  exact ⟨h.1.1, h.1.2, h.2⟩

/-- When the guard passes, the pre-await part of handleSendMessage sets
sending and produces the payload computed from the current props and
tracker state. -/
theorem sendPhase1_open (props : CMProps) (st : CMState)
    (h : guardBlocked props st = false) :
    sendPhase1 props st =
      ({ st with sending := true },
        some (computePayload props.currentCode props.stdout props.stderr
          props.outputIsStale st.lastSentCode st.messageInput)) := by
  simp [sendPhase1, h]

/-- When the guard passes, a whole send is the settlement continuation
applied to the computed payload, the captured currentCode and the state
with sending set. -/
theorem handleSendMessage_open (props : CMProps) (st : CMState)
    (o : TransportOutcome) (h : guardBlocked props st = false) :
    handleSendMessage props st o =
      sendSettle (computePayload props.currentCode props.stdout props.stderr
          props.outputIsStale st.lastSentCode st.messageInput)
        props.currentCode o { st with sending := true } := by
  unfold handleSendMessage
  rw [sendPhase1_open props st h]

/-- C2: a failed transport call leaves lastSentCode (and the typed message)
unchanged, and the immediately following retry with the same props computes
exactly the payload of the original attempt. -/
theorem failedSendRetryIdentical (props : CMProps) (st : CMState)
    (h : guardBlocked props st = false) :
    (handleSendMessage props st TransportOutcome.failure).lastSentCode =
      st.lastSentCode ∧
    (handleSendMessage props st TransportOutcome.failure).messageInput =
      st.messageInput ∧
    (sendPhase1 props st).2 =
      some (computePayload props.currentCode props.stdout props.stderr
        props.outputIsStale st.lastSentCode st.messageInput) ∧
    (sendPhase1 props
        (handleSendMessage props st TransportOutcome.failure)).2 =
      some (computePayload props.currentCode props.stdout props.stderr
        props.outputIsStale st.lastSentCode st.messageInput) := by
  obtain ⟨h1, h2, h3⟩ := guard_false_parts props st h
  rw [handleSendMessage_open props st TransportOutcome.failure h,
    sendPhase1_open props st h]
  refine ⟨rfl, rfl, rfl, ?_⟩
  rw [sendPhase1_open]
  · rfl
  · simp [guardBlocked, sendSettle, h1, h2]

/-- C2 witness: at the sample props and state the failed send leaves the
tracker untouched and the retry payload equals the original. -/
theorem failedSendRetryIdentical_spot :
    guardBlocked propsSample stSample = false ∧
    ((handleSendMessage propsSample stSample
        TransportOutcome.failure).lastSentCode = stSample.lastSentCode ∧
      (handleSendMessage propsSample stSample
        TransportOutcome.failure).messageInput = stSample.messageInput ∧
      (sendPhase1 propsSample stSample).2 =
        some (computePayload propsSample.currentCode propsSample.stdout
          propsSample.stderr propsSample.outputIsStale stSample.lastSentCode
          stSample.messageInput) ∧
      (sendPhase1 propsSample
          (handleSendMessage propsSample stSample TransportOutcome.failure)).2 =
        some (computePayload propsSample.currentCode propsSample.stdout
          propsSample.stderr propsSample.outputIsStale stSample.lastSentCode
          stSample.messageInput)) :=
  ⟨by decide, failedSendRetryIdentical propsSample stSample (by decide)⟩

/-- C3: starting from a state whose baseline differs from the current code,
a successful send attaches the code, and a second successful send with a
fresh nonblank message and no edit or run in between attaches nothing:
code, stdout and stderr are all null, because the first success advanced
lastSentCode to the current code. -/
theorem doubleSendAttachesCodeOnce (props : CMProps) (st : CMState)
    (conv : Conversation) (text2 : String)
    (h : guardBlocked props st = false)
    (hdiff : st.lastSentCode ≠ some props.currentCode)
    (h2 : strTrim text2 ≠ "") :
    (sendPhase1 props st).2 =
      some (computePayload props.currentCode props.stdout props.stderr
        props.outputIsStale st.lastSentCode st.messageInput) ∧
    (computePayload props.currentCode props.stdout props.stderr
      props.outputIsStale st.lastSentCode st.messageInput).code =
        some props.currentCode ∧
    (handleSendMessage props st (TransportOutcome.success conv)).lastSentCode =
      some props.currentCode ∧
    (sendPhase1 props
        { handleSendMessage props st (TransportOutcome.success conv) with
          messageInput := text2 }).2 =
      some { text := text2, code := none, stdout := none, stderr := none } := by
  obtain ⟨hg1, hg2, hg3⟩ := guard_false_parts props st h
  rw [handleSendMessage_open props st _ h, sendPhase1_open props st h]
  refine ⟨rfl, ?_, ?_, ?_⟩
  · simp [computePayload, hdiff]
  · simp [sendSettle, computePayload, hdiff]
  · rw [sendPhase1_open]
    · simp [sendSettle, computePayload, hdiff]
    · simp [guardBlocked, sendSettle, hg1, h2]

/-- C3 witness: the sample never-sent state attaches code on the first
successful send and nothing but text on the second. -/
theorem doubleSendAttachesCodeOnce_spot :
    (guardBlocked propsSample stSample = false ∧
      stSample.lastSentCode ≠ some propsSample.currentCode ∧
      strTrim "more" ≠ "") ∧
    ((sendPhase1 propsSample stSample).2 =
      some (computePayload propsSample.currentCode propsSample.stdout
        propsSample.stderr propsSample.outputIsStale stSample.lastSentCode
        stSample.messageInput) ∧
    (computePayload propsSample.currentCode propsSample.stdout
      propsSample.stderr propsSample.outputIsStale stSample.lastSentCode
      stSample.messageInput).code = some propsSample.currentCode ∧
    (handleSendMessage propsSample stSample
      (TransportOutcome.success convSample)).lastSentCode =
        some propsSample.currentCode ∧
    (sendPhase1 propsSample
        { handleSendMessage propsSample stSample
            (TransportOutcome.success convSample) with
          messageInput := "more" }).2 =
      some { text := "more", code := none, stdout := none, stderr := none }) :=
  ⟨⟨by decide, by decide, by decide⟩,
    doubleSendAttachesCodeOnce propsSample stSample convSample "more"
      (by decide) (by decide) (by decide)⟩

/-- C4 counterexample: a concrete send whose 10 second timeout fires (the
UI is unblocked, sending is false) and whose transport call resolves
successfully afterwards; the continuation still runs, so lastSentCode
advances from the never-sent baseline to the sent code and the displayed
conversation is replaced by the abandoned result: the tracker is updated
from a result the user already gave up on. -/
theorem lateResultAfterTimeoutUpdatesTracker :
    (sendPhase1 propsSample stSample).2 =
      some (computePayload propsSample.currentCode propsSample.stdout
        propsSample.stderr propsSample.outputIsStale stSample.lastSentCode
        stSample.messageInput) ∧
    stSample.lastSentCode = none ∧
    (timeoutFire (sendPhase1 propsSample stSample).1).sending = false ∧
    (sendSettle (computePayload propsSample.currentCode propsSample.stdout
        propsSample.stderr propsSample.outputIsStale stSample.lastSentCode
        stSample.messageInput) propsSample.currentCode
      (TransportOutcome.success convSample)
      (timeoutFire (sendPhase1 propsSample stSample).1)).lastSentCode =
        some "print(1)" ∧
    (sendSettle (computePayload propsSample.currentCode propsSample.stdout
        propsSample.stderr propsSample.outputIsStale stSample.lastSentCode
        stSample.messageInput) propsSample.currentCode
      (TransportOutcome.success convSample)
      (timeoutFire (sendPhase1 propsSample stSample).1)).conversation =
        some convSample := by
  refine ⟨?_, rfl, ?_, ?_, ?_⟩ <;> decide

/-- C4 amended: the 10 second timeout only unblocks the UI: it clears
sending and surfaces an error, and by itself changes no tracker state; but
it does not abandon the in-flight transport call, so when that call later
resolves successfully the continuation still replaces the conversation and
advances lastSentCode whenever the original payload attached code. -/
theorem timeoutUnblocksUIButLateSuccessCommits (props : CMProps)
    (st : CMState) (conv : Conversation)
    (h : guardBlocked props st = false) :
    (timeoutFire (sendPhase1 props st).1).sending = false ∧
    (timeoutFire (sendPhase1 props st).1).lastSentCode = st.lastSentCode ∧
    (timeoutFire (sendPhase1 props st).1).conversation = st.conversation ∧
    (sendSettle (computePayload props.currentCode props.stdout props.stderr
        props.outputIsStale st.lastSentCode st.messageInput)
      props.currentCode (TransportOutcome.success conv)
      (timeoutFire (sendPhase1 props st).1)).conversation = some conv ∧
    (sendSettle (computePayload props.currentCode props.stdout props.stderr
        props.outputIsStale st.lastSentCode st.messageInput)
      props.currentCode (TransportOutcome.success conv)
      (timeoutFire (sendPhase1 props st).1)).lastSentCode =
      (if st.lastSentCode = some props.currentCode then st.lastSentCode
        else some props.currentCode) := by
  rw [sendPhase1_open props st h]
  by_cases hd : st.lastSentCode = some props.currentCode <;>
    simp [timeoutFire, sendSettle, computePayload, hd]

/-- C4 amended witness: the concrete sample trace, with the guard
discharged. -/
theorem timeoutUnblocksUIButLateSuccessCommits_spot :
    guardBlocked propsSample stSample = false ∧
    ((timeoutFire (sendPhase1 propsSample stSample).1).sending = false ∧
      (timeoutFire (sendPhase1 propsSample stSample).1).lastSentCode =
        stSample.lastSentCode ∧
      (timeoutFire (sendPhase1 propsSample stSample).1).conversation =
        stSample.conversation ∧
      (sendSettle (computePayload propsSample.currentCode propsSample.stdout
          propsSample.stderr propsSample.outputIsStale stSample.lastSentCode
          stSample.messageInput) propsSample.currentCode
        (TransportOutcome.success convSample)
        (timeoutFire (sendPhase1 propsSample stSample).1)).conversation =
          some convSample ∧
      (sendSettle (computePayload propsSample.currentCode propsSample.stdout
          propsSample.stderr propsSample.outputIsStale stSample.lastSentCode
          stSample.messageInput) propsSample.currentCode
        (TransportOutcome.success convSample)
        (timeoutFire (sendPhase1 propsSample stSample).1)).lastSentCode =
        (if stSample.lastSentCode = some propsSample.currentCode then
          stSample.lastSentCode else some propsSample.currentCode)) :=
  ⟨by decide,
    timeoutUnblocksUIButLateSuccessCommits propsSample stSample convSample
      (by decide)⟩

/-- C6 counterexample: from the initial state, a first call to initialize
starts an engine load and leaves the runtime Loading with the instance
still null; a second call made while that load is in flight does not await
the existing attempt but starts a second load, so two loads are in
progress at once. -/
theorem secondLoadStartedWhileLoading :
    (initPhase1 runnerInit).2 = InitPhase1.startedLoad ∧
    (initPhase1 runnerInit).1.status = PyodideStatus.loading ∧
    (initPhase1 runnerInit).1.pyodide = none ∧
    (initPhase1 (initPhase1 runnerInit).1).2 = InitPhase1.startedLoad := by
  decide

/-- C6 amended: initialize is idempotent only once an engine instance
exists: with a non-null instance a further call returns it unchanged
without starting a load; but while a load is in flight the instance field
is still null, so any call made then starts another load. -/
theorem initIdempotentOnlyWithInstance (s : RunnerState) :
    (s.pyodide.isSome = true →
      initPhase1 s = (s, InitPhase1.returnedExisting)) ∧
    (s.pyodide = none →
      (initPhase1 s).2 = InitPhase1.startedLoad ∧
      (initPhase1 s).1.status = PyodideStatus.loading) := by
  constructor
  · intro h
    simp [initPhase1, h]
  · intro h
    simp [initPhase1, h]

/-- C6 amended witness: a ready runner state with an instance is returned
unchanged. -/
theorem initIdempotentOnlyWithInstance_spot :
    readyRunnerSample.pyodide.isSome = true ∧
    initPhase1 readyRunnerSample =
      (readyRunnerSample, InitPhase1.returnedExisting) :=
  ⟨by decide, (initIdempotentOnlyWithInstance readyRunnerSample).1 (by decide)⟩

/-- One settled call preserves the agreement between the status enum and
the nullness of the engine instance. -/
theorem runnerStep_ready_iff (s : RunnerState) (c : SettledCall)
    (h : s.status = PyodideStatus.ready ↔ s.pyodide.isSome = true) :
    (runnerStep s c).status = PyodideStatus.ready ↔
      (runnerStep s c).pyodide.isSome = true := by
  cases c with
  | initCall r =>
      by_cases hp : s.pyodide.isSome = true
      · simpa [runnerStep, hp] using h
      · cases r <;> simp [runnerStep, hp]
  | execCall r =>
      by_cases hp : s.pyodide.isSome = true
      · simpa [runnerStep, hp] using h
      · cases r <;> simp [runnerStep, hp]

/-- Folding any sequence of settled calls preserves the status-instance
agreement. -/
theorem runnerFold_ready_iff (calls : List SettledCall) (s : RunnerState)
    (h : s.status = PyodideStatus.ready ↔ s.pyodide.isSome = true) :
    (calls.foldl runnerStep s).status = PyodideStatus.ready ↔
      (calls.foldl runnerStep s).pyodide.isSome = true := by
  induction calls generalizing s with
  | nil => simpa using h
  | cons c cs ih => exact ih (runnerStep s c) (runnerStep_ready_iff s c h)

/-- C10: after any sequence of settled initialize and executeCode calls the
status is ready exactly when the engine instance is non-null; a failed load
from an instance-free state leaves the instance null with status error, and
a subsequent successful call reaches ready, so retry is possible. -/
theorem statusReadyIffEngineInstance (calls : List SettledCall)
    (s : RunnerState) (hnull : s.pyodide = none) :
    ((calls.foldl runnerStep runnerInit).status = PyodideStatus.ready ↔
      (calls.foldl runnerStep runnerInit).pyodide.isSome = true) ∧
    (runnerStep s (SettledCall.initCall none)).pyodide = none ∧
    (runnerStep s (SettledCall.initCall none)).status = PyodideStatus.error ∧
    runnerStep (runnerStep s (SettledCall.initCall none))
        (SettledCall.initCall (some 7)) =
      { pyodide := some 7, status := PyodideStatus.ready } := by
  refine ⟨runnerFold_ready_iff calls runnerInit (by simp [runnerInit]), ?_, ?_, ?_⟩ <;>
    simp [runnerStep, hnull]

/-- C10 witness: the invariant and the failed-load retry at the initial
state and a concrete call sequence. -/
theorem statusReadyIffEngineInstance_spot :
    runnerInit.pyodide = none ∧
    ((([SettledCall.initCall none,
        SettledCall.execCall (some 3)].foldl runnerStep runnerInit).status =
          PyodideStatus.ready ↔
      ([SettledCall.initCall none,
        SettledCall.execCall (some 3)].foldl runnerStep runnerInit).pyodide.isSome =
          true) ∧
      (runnerStep runnerInit (SettledCall.initCall none)).pyodide = none ∧
      (runnerStep runnerInit (SettledCall.initCall none)).status =
        PyodideStatus.error ∧
      runnerStep (runnerStep runnerInit (SettledCall.initCall none))
          (SettledCall.initCall (some 7)) =
        { pyodide := some 7, status := PyodideStatus.ready }) :=
  ⟨rfl,
    statusReadyIffEngineInstance
      [SettledCall.initCall none, SettledCall.execCall (some 3)] runnerInit rfl⟩

end Playdo
